import Mathlib

/-!
Shallow embedding of the `dh5-api` repository: a Python wrapper exposing a
Modbus RTU register map for a six-axis gripper controller ("DH5").

The wrapper class `DH5ModbusAPI` lives in `dh5_api/dh5_api.py`, which is not
among the repository files available here; only its package declaration
(`dh5_api/__init__.py`), its unit tests (`tests/test_dh5_api.py`) and its
callers (`examples/*.py`) are.  The definitions below are therefore modelled
from the specification's description of the class, pinned wherever possible
by the concrete expectations of the unit tests (register constants, return
codes, raise-vs-return behaviour, the packed status decode) and by the
examples' documented value ranges.

Modelling conventions:
  * a method of the class becomes a pure function returning
    `List ModbusCall × Except ApiError α`: the list is the exact sequence of
    calls the method issues to the underlying Modbus client, and the
    `Except` is `error ApiError.valueError` exactly when the Python method
    raises `ValueError`;
  * the device's register file is a function `Nat → Nat` (Modbus holding
    registers), so a `read_holding_registers(addr, count)` response is the
    `count` registers starting at `addr`;
  * Python floats for the 0.0–1.0 ratios become `ℚ`, and `round` is
    Mathlib's `round` on `ℚ` (nearest integer).
-/

namespace DH5

namespace DH5Registers

/-- Register constants pinned by `tests/test_dh5_api.py::test_register_addresses`. -/
def RETURN_TO_ZERO : Nat := 0x0100

def RETURN_TO_ZERO_STATUS : Nat := 0x0200

def SAVE_PARAM : Nat := 0x0300

def AXIS_POSITION_BASE : Nat := 0x0101

def AXIS_COUNT : Nat := 6

/-- Modelled from the spec: a static register-address table with "base offsets
for position/speed/force/current/status per axis"; the speed base is not pinned
by the tests, only its existence is. -/
def AXIS_SPEED_BASE : Nat := 0x0107

/-- Modelled from the spec: the per-axis force base offset (value not pinned by
the tests). -/
def AXIS_FORCE_BASE : Nat := 0x010D

/-- Modelled from the spec: base of the per-axis position feedback registers
read by `get_all_positions` and `get_axis_position` (value not pinned). -/
def AXIS_FEEDBACK_POSITION_BASE : Nat := 0x0201

/-- Modelled from the spec: base of the per-axis speed feedback registers
(value not pinned). -/
def AXIS_FEEDBACK_SPEED_BASE : Nat := 0x0207

/-- Modelled from the spec: base of the per-axis current feedback registers
(value not pinned). -/
def AXIS_FEEDBACK_CURRENT_BASE : Nat := 0x020D

/-- Modelled from the spec: the register written by `reset_faults` (value not
pinned by the tests, only that `reset_faults` issues one `write_register`). -/
def FAULT_RESET : Nat := 0x0501

/-- Modelled from the spec: the register written by `aging_test` (value not
pinned). -/
def AGING_TEST : Nat := 0x0502

end DH5Registers

/-- One call to the underlying Modbus client library, the black-box
collaborator exposing `read_holding_registers`, `write_register` and
`write_registers`. -/
inductive ModbusCall where
  | readHoldingRegisters (address count : Nat)
  | writeRegister (address : Nat) (value : Int)
  | writeRegisters (address : Nat) (values : List Int)
  deriving DecidableEq, Repr

/-- The exception a method raises on an argument outside its checked range
(Python `ValueError`). -/
inductive ApiError where
  | valueError
  deriving DecidableEq, Repr

/-- Return code for success, pinned by the tests (`DH5ModbusAPI.SUCCESS`). -/
def SUCCESS : Int := 0

/-- Modelled from the spec: `DH5ModbusAPI.ERROR_CONNECTION_FAILED`, the code
`open_connection` returns when the client's `connect()` fails; the tests pin
only that it is distinct from `SUCCESS`. -/
def ERROR_CONNECTION_FAILED : Int := -1

/-- The outcome of one method call: the Modbus client calls it issued, in
order, and either a raised `ValueError` or the returned value. -/
abbrev Ret (α : Type) : Type := List ModbusCall × Except ApiError α

/-- Modelled from the spec: `open_connection` delegates to the client's
`connect()`; it returns `SUCCESS` and records the connection as open when
`connect()` returns `True`, and returns `ERROR_CONNECTION_FAILED` otherwise
(pinned by `test_open_connection_success` / `test_open_connection_failure`).
The argument is `connect()`'s result; the returned pair is
(return code, `is_connected`). -/
def open_connection (connect_ok : Bool) : Int × Bool :=
  if connect_ok then (SUCCESS, true) else (ERROR_CONNECTION_FAILED, false)

/-- Modelled from the spec: `initialize` (all axes) accepts only modes 1
(close), 2 (open), 3 (find stroke) and raises `ValueError` otherwise
(`test_initialize_invalid_mode` pins mode 5); on a valid mode it writes the
mode to the `RETURN_TO_ZERO` register with one `write_register` call.  Named
`initialize_all` here because `initialize` is a Lean keyword. -/
def initialize_all (mode : Nat) : Ret Int :=
  if mode = 1 ∨ mode = 2 ∨ mode = 3 then
    ([ModbusCall.writeRegister DH5Registers.RETURN_TO_ZERO (Int.ofNat mode)],
     Except.ok SUCCESS)
  else ([], Except.error ApiError.valueError)

/-- Modelled from the spec: `initialize_axis` checks the axis index is in
1..6 and the mode is in {1, 2, 3}, raising `ValueError` otherwise; on valid
arguments it issues one `write_register` (the register/value layout of the
per-axis command is not pinned by the tests and is modelled as a packed
value written to `RETURN_TO_ZERO`). -/
def initialize_axis (axis mode : Nat) : Ret Int :=
  if axis < 1 ∨ 6 < axis then ([], Except.error ApiError.valueError)
  else if mode = 1 ∨ mode = 2 ∨ mode = 3 then
    ([ModbusCall.writeRegister DH5Registers.RETURN_TO_ZERO
        (Int.ofNat (axis * 256 + mode))],
     Except.ok SUCCESS)
  else ([], Except.error ApiError.valueError)

/-- Modelled from the spec: `set_all_positions` requires exactly
`AXIS_COUNT = 6` position values (raising `ValueError` otherwise, pinned by
`test_set_all_positions_invalid_length`) and writes them with one
`write_registers` call starting at `AXIS_POSITION_BASE`. -/
def set_all_positions (positions : List Int) : Ret Int :=
  if positions.length = 6 then
    ([ModbusCall.writeRegisters DH5Registers.AXIS_POSITION_BASE positions],
     Except.ok SUCCESS)
  else ([], Except.error ApiError.valueError)

/-- Modelled from the spec: `get_all_positions` issues one
`read_holding_registers` for the 6 per-axis feedback position registers and
returns their values (pinned by `test_get_all_positions`, which returns the
mocked response's register list). -/
def get_all_positions (regs : Nat → Nat) : Ret (List Int) :=
  ([ModbusCall.readHoldingRegisters DH5Registers.AXIS_FEEDBACK_POSITION_BASE 6],
   Except.ok ((List.range 6).map
     (fun i => Int.ofNat (regs (DH5Registers.AXIS_FEEDBACK_POSITION_BASE + i)))))

/-- Modelled from the spec: `set_axis_position` checks the axis index is in
1..6 (raising `ValueError` otherwise, pinned by
`test_set_axis_position_invalid_axis` at axis 7) and issues one
`write_register` to that axis's position register. -/
def set_axis_position (axis : Nat) (position : Int) : Ret Int :=
  if axis < 1 ∨ 6 < axis then ([], Except.error ApiError.valueError)
  else
    ([ModbusCall.writeRegister (DH5Registers.AXIS_POSITION_BASE + (axis - 1))
        position],
     Except.ok SUCCESS)

/-- Modelled from the spec: `get_axis_position` checks the axis index is in
1..6 and issues one single-register read of that axis's feedback position. -/
def get_axis_position (regs : Nat → Nat) (axis : Nat) : Ret Int :=
  if axis < 1 ∨ 6 < axis then ([], Except.error ApiError.valueError)
  else
    ([ModbusCall.readHoldingRegisters
        (DH5Registers.AXIS_FEEDBACK_POSITION_BASE + (axis - 1)) 1],
     Except.ok (Int.ofNat (regs (DH5Registers.AXIS_FEEDBACK_POSITION_BASE + (axis - 1)))))

/-- Modelled from the spec: `get_axis_speed` checks the axis index is in 1..6
and issues one single-register read of that axis's speed feedback. -/
def get_axis_speed (regs : Nat → Nat) (axis : Nat) : Ret Int :=
  if axis < 1 ∨ 6 < axis then ([], Except.error ApiError.valueError)
  else
    ([ModbusCall.readHoldingRegisters
        (DH5Registers.AXIS_FEEDBACK_SPEED_BASE + (axis - 1)) 1],
     Except.ok (Int.ofNat (regs (DH5Registers.AXIS_FEEDBACK_SPEED_BASE + (axis - 1)))))

/-- Modelled from the spec: `get_axis_current` checks the axis index is in
1..6 and issues one single-register read of that axis's current feedback. -/
def get_axis_current (regs : Nat → Nat) (axis : Nat) : Ret Int :=
  if axis < 1 ∨ 6 < axis then ([], Except.error ApiError.valueError)
  else
    ([ModbusCall.readHoldingRegisters
        (DH5Registers.AXIS_FEEDBACK_CURRENT_BASE + (axis - 1)) 1],
     Except.ok (Int.ofNat (regs (DH5Registers.AXIS_FEEDBACK_CURRENT_BASE + (axis - 1)))))

/-- Modelled from the spec: the ratio-to-absolute-position conversion — "for
all ratio r in [0,1] and calibrated max m, the computed absolute position
equals round(r*m)". -/
def ratioToPosition (r : ℚ) (m : Nat) : Int := round (r * (m : ℚ))

/-- Modelled from the spec: the inverse conversion from an absolute position
back to a ratio, dividing by the calibrated per-axis maximum. -/
def positionToRatio (p : Int) (m : Nat) : ℚ := (p : ℚ) / (m : ℚ)

/-- Modelled from the spec: `calibrate_max_positions` derives the runtime
calibration values "`max_positions`, one integer per axis" by reading the six
feedback position registers at full stroke. -/
def calibrate_max_positions (regs : Nat → Nat) : List Nat :=
  (List.range 6).map (fun i => regs (DH5Registers.AXIS_FEEDBACK_POSITION_BASE + i))

/-- Modelled from the spec: `set_all_positions_by_ratio` requires exactly 6
ratios, each in [0,1] (raising `ValueError` otherwise), converts each ratio
against the calibrated per-axis maximum with `ratioToPosition`, and delegates
the write to `set_all_positions`. -/
def set_all_positions_by_ratio (max_positions : List Nat) (ratios : List ℚ) :
    Ret Int :=
  if ratios.length = 6 then
    if ratios.all (fun r => decide ((0 : ℚ) ≤ r) && decide (r ≤ 1)) then
      set_all_positions (List.zipWith ratioToPosition ratios max_positions)
    else ([], Except.error ApiError.valueError)
  else ([], Except.error ApiError.valueError)

/-- Modelled from the spec: the scaling of a speed or force ratio to its raw
register integer (trivial integer scaling to percent). -/
def ratioToRegister (r : ℚ) : Int := round (r * 100)

/-- Modelled from the examples and tests: `set_all_speeds` requires exactly 6
speed values, each in the documented range 0.1–1.0
(`test_set_all_speeds_invalid_range` pins that 0.05 raises `ValueError`,
"First value too low"; `position_control.py` documents "speeds (0.1 to
1.0)"), and writes the scaled values with one `write_registers` call. -/
def set_all_speeds (speeds : List ℚ) : Ret Int :=
  if speeds.length = 6 then
    if speeds.all (fun r => decide ((1 : ℚ)/10 ≤ r) && decide (r ≤ 1)) then
      ([ModbusCall.writeRegisters DH5Registers.AXIS_SPEED_BASE
          (speeds.map ratioToRegister)],
       Except.ok SUCCESS)
    else ([], Except.error ApiError.valueError)
  else ([], Except.error ApiError.valueError)

/-- Modelled from the examples and tests: `set_all_forces` requires exactly 6
force values, each in the documented range 0.2–1.0 (`position_control.py`
documents "forces (0.2 to 1.0)"), and writes the scaled values with one
`write_registers` call. -/
def set_all_forces (forces : List ℚ) : Ret Int :=
  if forces.length = 6 then
    if forces.all (fun r => decide ((1 : ℚ)/5 ≤ r) && decide (r ≤ 1)) then
      ([ModbusCall.writeRegisters DH5Registers.AXIS_FORCE_BASE
          (forces.map ratioToRegister)],
       Except.ok SUCCESS)
    else ([], Except.error ApiError.valueError)
  else ([], Except.error ApiError.valueError)

/-- Modelled from the spec: the map from one axis's two-bit status field to
its status string.  The spec gives the codomain as a set containing
"initializing" and "initialized"; the test pins field value 0b01 to
"initialized", and the examples use "initializing" for an axis still moving. -/
def axisStatusString (bits : Nat) : String :=
  if bits = 0 then "not_initialized"
  else if bits = 1 then "initialized"
  else if bits = 2 then "initializing"
  else "unknown"

/-- Modelled from the spec: the decode of the single packed status register
word — "a packed bitmask of six 2-bit axis states" — into one
(key, status string) entry per axis, keyed "axis_F1".."axis_F6" (the keys are
pinned by `initialization.py::initialize_single_axis`). -/
def decodeInitStatus (word : Nat) : List (String × String) :=
  (List.range DH5Registers.AXIS_COUNT).map
    (fun i => ("axis_F" ++ toString (i + 1),
               axisStatusString ((word >>> (2 * i)) &&& 3)))

/-- Modelled from the spec: `check_initialization` issues one
`read_holding_registers` of the `RETURN_TO_ZERO_STATUS` word and decodes it
with `decodeInitStatus`. -/
def check_initialization (regs : Nat → Nat) : Ret (List (String × String)) :=
  ([ModbusCall.readHoldingRegisters DH5Registers.RETURN_TO_ZERO_STATUS 1],
   Except.ok (decodeInitStatus (regs DH5Registers.RETURN_TO_ZERO_STATUS)))

/-- Modelled from the spec: `reset_faults` issues one `write_register` to the
fault-reset register (pinned by `test_reset_faults` to succeed with one
`write_register` call). -/
def reset_faults : Ret Int :=
  ([ModbusCall.writeRegister DH5Registers.FAULT_RESET 1], Except.ok SUCCESS)

/-- Modelled from the spec: `aging_test` accepts only flags 0 and 1, raising
`ValueError` otherwise (`test_aging_test_invalid_flag` pins flag 2); on a
valid flag it issues one `write_register`. -/
def aging_test (flag : Nat) : Ret Int :=
  if flag = 0 ∨ flag = 1 then
    ([ModbusCall.writeRegister DH5Registers.AGING_TEST (Int.ofNat flag)],
     Except.ok SUCCESS)
  else ([], Except.error ApiError.valueError)

/-- Auxiliary: the entry of a `zipWith` at an index where both lists have an
entry. -/
theorem zipWith_getElem?_eq_some {α β γ : Type} (f : α → β → γ)
    (l₁ : List α) (l₂ : List β) (i : Nat) (a : α) (b : β)
    (h₁ : l₁[i]? = some a) (h₂ : l₂[i]? = some b) :
    (List.zipWith f l₁ l₂)[i]? = some (f a b) := by
  rw [List.getElem?_zipWith, h₁, h₂]

/-- C1: for every ratio r in [0,1] and every calibrated per-axis maximum m (an
entry of the length-6 `max_positions` set by calibration), the absolute
position that `set_all_positions_by_ratio` computes and writes for that axis
equals round(r·m). -/
theorem c1_ratio_position_is_round (max_positions : List Nat) (ratios : List ℚ)
    (hm : max_positions.length = 6) (hr : ratios.length = 6)
    (hrange : ∀ r ∈ ratios, 0 ≤ r ∧ r ≤ 1)
    (i : Nat) (r : ℚ) (m : Nat)
    (hri : ratios[i]? = some r) (hmi : max_positions[i]? = some m) :
    ∃ positions : List Int,
      set_all_positions_by_ratio max_positions ratios =
        ([ModbusCall.writeRegisters DH5Registers.AXIS_POSITION_BASE positions],
         Except.ok SUCCESS) ∧
      positions[i]? = some (round (r * (m : ℚ))) := by
  refine ⟨List.zipWith ratioToPosition ratios max_positions, ?_, ?_⟩
  · have hall : ratios.all (fun r => decide ((0 : ℚ) ≤ r) && decide (r ≤ 1)) = true := by
      rw [List.all_eq_true]
      intro x hx
      have hr0 := (hrange x hx).1
      have hr1 := (hrange x hx).2
      simp [hr0, hr1]
    unfold set_all_positions_by_ratio set_all_positions
    rw [if_pos hr, if_pos hall, if_pos (by rw [List.length_zipWith, hr, hm]; rfl)]
  · exact zipWith_getElem?_eq_some ratioToPosition ratios max_positions i r m hri hmi

/-- C1 witness: a concrete calibrated state and ratio list where axis 1's
written position is round(0.5 · 500) = 250. -/
theorem c1_ratio_position_is_round_witness :
    ∃ positions : List Int,
      set_all_positions_by_ratio [500, 500, 500, 500, 500, 500]
          [1/2, 1/2, 1/2, 1/2, 1/2, 1/2] =
        ([ModbusCall.writeRegisters DH5Registers.AXIS_POSITION_BASE positions],
         Except.ok SUCCESS) ∧
      positions[0]? = some (round ((1 : ℚ)/2 * ((500 : Nat) : ℚ))) :=
  c1_ratio_position_is_round [500, 500, 500, 500, 500, 500]
    [1/2, 1/2, 1/2, 1/2, 1/2, 1/2] rfl rfl
    (by intro r hr; simp only [List.mem_cons, List.not_mem_nil, or_false] at hr
        rcases hr with h | h | h | h | h | h <;> subst h <;> constructor <;> norm_num)
    0 (1/2) 500 rfl rfl

/-- C5: the ratio-to-position conversion and its inverse round-trip within one
unit — for r in [0,1] and calibrated max m > 0, converting r to an absolute
position, back to a ratio, and again to a position moves the position by at
most one unit. -/
theorem c5_round_trip_within_one_unit (r : ℚ) (m : Nat)
    (h0 : 0 ≤ r) (h1 : r ≤ 1) (hm : 0 < m) :
    |ratioToPosition (positionToRatio (ratioToPosition r m) m) m -
      ratioToPosition r m| ≤ 1 := by
  have hm0 : (m : ℚ) ≠ 0 := by
    exact_mod_cast Nat.pos_iff_ne_zero.mp hm
  unfold ratioToPosition positionToRatio
  rw [div_mul_cancel₀ _ hm0, round_intCast, sub_self, abs_zero]
  exact zero_le_one

/-- C5 witness: the round-trip bound at r = 1/3, m = 7. -/
theorem c5_round_trip_within_one_unit_witness :
    |ratioToPosition (positionToRatio (ratioToPosition (1/3) 7) 7) 7 -
      ratioToPosition (1/3) 7| ≤ 1 :=
  c5_round_trip_within_one_unit (1/3) 7 (by norm_num) (by norm_num) (by norm_num)

/-- C2: `check_initialization` decodes the packed status word into exactly six
independent two-bit fields — the entry for axis i+1 depends only on bits
2i..2i+1 of the word, i.e. on (word / 4^i) mod 4 — each mapped to a status
string from a set containing "initializing" and "initialized"; and the word
0b010101010101 decodes to all six axes "initialized". -/
theorem c2_status_word_decode :
    (∀ word : Nat, ∀ i : Nat, i < 6 →
      (decodeInitStatus word)[i]? =
        some ("axis_F" ++ toString (i + 1),
              axisStatusString (word / 4 ^ i % 4))) ∧
    (∀ bits : Nat, axisStatusString bits ∈
      ["not_initialized", "initialized", "initializing", "unknown"]) ∧
    axisStatusString 1 = "initialized" ∧
    axisStatusString 2 = "initializing" ∧
    (∀ regs : Nat → Nat, regs DH5Registers.RETURN_TO_ZERO_STATUS = 0b010101010101 →
      check_initialization regs =
        ([ModbusCall.readHoldingRegisters DH5Registers.RETURN_TO_ZERO_STATUS 1],
         Except.ok
           [("axis_F1", "initialized"), ("axis_F2", "initialized"),
            ("axis_F3", "initialized"), ("axis_F4", "initialized"),
            ("axis_F5", "initialized"), ("axis_F6", "initialized")])) := by
  refine ⟨?_, ?_, rfl, rfl, ?_⟩
  · intro word i hi
    unfold decodeInitStatus DH5Registers.AXIS_COUNT
    rw [List.getElem?_map, List.getElem?_range hi, Option.map_some']
    have hand : (word >>> (2 * i)) &&& 3 = word / 4 ^ i % 4 := by
      rw [Nat.shiftRight_eq_div_pow]
      have h3 : (3 : Nat) = 2 ^ 2 - 1 := rfl
      rw [h3, Nat.and_pow_two_sub_one_eq_mod]
      rw [Nat.pow_mul]
    rw [hand]
  · intro bits
    unfold axisStatusString
    split_ifs <;> simp
  · intro regs hregs
    unfold check_initialization
    rw [hregs]
    rfl

/-- C2 witness: the independence decomposition applied at word 0b010101010101
and axis index 0, and the concrete all-initialized decode. -/
theorem c2_status_word_decode_witness :
    (decodeInitStatus 0b010101010101)[0]? =
      some ("axis_F" ++ toString (0 + 1),
            axisStatusString (0b010101010101 / 4 ^ 0 % 4)) ∧
    check_initialization (fun _ => 0b010101010101) =
      ([ModbusCall.readHoldingRegisters DH5Registers.RETURN_TO_ZERO_STATUS 1],
       Except.ok
         [("axis_F1", "initialized"), ("axis_F2", "initialized"),
          ("axis_F3", "initialized"), ("axis_F4", "initialized"),
          ("axis_F5", "initialized"), ("axis_F6", "initialized")]) :=
  ⟨c2_status_word_decode.1 0b010101010101 0 (by decide),
   c2_status_word_decode.2.2.2.2 (fun _ => 0b010101010101) rfl⟩

/-- C3: every axis-indexed operation (`set_axis_position`,
`get_axis_position`, `initialize_axis`, `get_axis_speed`,
`get_axis_current`), for an axis index outside 1..6, raises `ValueError` and
performs no Modbus client call at all. -/
theorem c3_axis_range_check (axis : Nat) (h : axis < 1 ∨ 6 < axis) :
    (∀ position : Int,
      set_axis_position axis position = ([], Except.error ApiError.valueError)) ∧
    (∀ regs : Nat → Nat,
      get_axis_position regs axis = ([], Except.error ApiError.valueError)) ∧
    (∀ mode : Nat,
      initialize_axis axis mode = ([], Except.error ApiError.valueError)) ∧
    (∀ regs : Nat → Nat,
      get_axis_speed regs axis = ([], Except.error ApiError.valueError)) ∧
    (∀ regs : Nat → Nat,
      get_axis_current regs axis = ([], Except.error ApiError.valueError)) := by
  refine ⟨fun position => ?_, fun regs => ?_, fun mode => ?_, fun regs => ?_,
    fun regs => ?_⟩ <;>
    simp only [set_axis_position, get_axis_position, initialize_axis,
      get_axis_speed, get_axis_current, if_pos h]

/-- C3 witness: the five operations at the test's invalid axis index 7. -/
theorem c3_axis_range_check_witness :
    set_axis_position 7 100 = ([], Except.error ApiError.valueError) ∧
    get_axis_position (fun _ => 0) 7 = ([], Except.error ApiError.valueError) ∧
    initialize_axis 7 2 = ([], Except.error ApiError.valueError) ∧
    get_axis_speed (fun _ => 0) 7 = ([], Except.error ApiError.valueError) ∧
    get_axis_current (fun _ => 0) 7 = ([], Except.error ApiError.valueError) :=
  ⟨(c3_axis_range_check 7 (by decide)).1 100,
   (c3_axis_range_check 7 (by decide)).2.1 (fun _ => 0),
   (c3_axis_range_check 7 (by decide)).2.2.1 2,
   (c3_axis_range_check 7 (by decide)).2.2.2.1 (fun _ => 0),
   (c3_axis_range_check 7 (by decide)).2.2.2.2 (fun _ => 0)⟩

/-- C4 counterexample: the test list [0.05, 0.1, 0.2, 0.3, 0.4, 0.5] has all
six values inside [0,1], yet `set_all_speeds` raises `ValueError` on it
(`test_set_all_speeds_invalid_range` pins exactly this behaviour, with the
comment "First value too low"), so the claim that every list of six ratios in
[0,1] passes the range check is false. -/
theorem c4_speed_range_counterexample :
    (∀ r ∈ [(1 : ℚ)/20, 1/10, 1/5, 3/10, 2/5, 1/2], 0 ≤ r ∧ r ≤ 1) ∧
    ([(1 : ℚ)/20, 1/10, 1/5, 3/10, 2/5, 1/2].length = 6) ∧
    set_all_speeds [(1 : ℚ)/20, 1/10, 1/5, 3/10, 2/5, 1/2] =
      ([], Except.error ApiError.valueError) := by
  refine ⟨?_, rfl, ?_⟩
  · intro r hr
    simp only [List.mem_cons, List.not_mem_nil, or_false] at hr
    rcases hr with h | h | h | h | h | h <;> subst h <;> constructor <;> norm_num
  · unfold set_all_speeds
    rw [if_pos (by norm_num), if_neg ?hneg]
    case hneg =>
      intro hcontra
      rw [List.all_eq_true] at hcontra
      have h20 := hcontra (1/20) (List.mem_cons_self _ _)
      simp only [Bool.and_eq_true, decide_eq_true_eq] at h20
      linarith [h20.1]

/-- C4 amended: `set_all_speeds` accepts exactly the lists of six speed values
each in [0.1, 1.0] and `set_all_forces` exactly the lists of six force values
each in [0.2, 1.0]; a value outside the respective interval raises
`ValueError`, and a list entirely inside it passes the range check and
succeeds. -/
theorem c4_speed_force_range (speeds forces : List ℚ)
    (hs : speeds.length = 6) (hf : forces.length = 6) :
    ((∀ r ∈ speeds, 1/10 ≤ r ∧ r ≤ 1) →
      set_all_speeds speeds =
        ([ModbusCall.writeRegisters DH5Registers.AXIS_SPEED_BASE
            (speeds.map ratioToRegister)],
         Except.ok SUCCESS)) ∧
    ((∃ r ∈ speeds, r < 1/10 ∨ 1 < r) →
      set_all_speeds speeds = ([], Except.error ApiError.valueError)) ∧
    ((∀ r ∈ forces, 1/5 ≤ r ∧ r ≤ 1) →
      set_all_forces forces =
        ([ModbusCall.writeRegisters DH5Registers.AXIS_FORCE_BASE
            (forces.map ratioToRegister)],
         Except.ok SUCCESS)) ∧
    ((∃ r ∈ forces, r < 1/5 ∨ 1 < r) →
      set_all_forces forces = ([], Except.error ApiError.valueError)) := by
  refine ⟨fun hin => ?_, fun hout => ?_, fun hin => ?_, fun hout => ?_⟩
  · have hall : speeds.all (fun r => decide ((1 : ℚ)/10 ≤ r) && decide (r ≤ 1)) = true := by
      rw [List.all_eq_true]
      intro x hx
      simp only [Bool.and_eq_true, decide_eq_true_eq]
      exact ⟨(hin x hx).1, (hin x hx).2⟩
    unfold set_all_speeds
    rw [if_pos hs, if_pos hall]
  · have hnall : ¬ speeds.all (fun r => decide ((1 : ℚ)/10 ≤ r) && decide (r ≤ 1)) = true := by
      rw [List.all_eq_true]
      intro hcontra
      obtain ⟨r, hrmem, hrout⟩ := hout
      have := hcontra r hrmem
      simp only [Bool.and_eq_true, decide_eq_true_eq] at this
      rcases hrout with h | h
      · exact absurd this.1 (not_le.mpr h)
      · exact absurd this.2 (not_le.mpr h)
    unfold set_all_speeds
    rw [if_pos hs, if_neg hnall]
  · have hall : forces.all (fun r => decide ((1 : ℚ)/5 ≤ r) && decide (r ≤ 1)) = true := by
      rw [List.all_eq_true]
      intro x hx
      simp only [Bool.and_eq_true, decide_eq_true_eq]
      exact ⟨(hin x hx).1, (hin x hx).2⟩
    unfold set_all_forces
    rw [if_pos hf, if_pos hall]
  · have hnall : ¬ forces.all (fun r => decide ((1 : ℚ)/5 ≤ r) && decide (r ≤ 1)) = true := by
      rw [List.all_eq_true]
      intro hcontra
      obtain ⟨r, hrmem, hrout⟩ := hout
      have := hcontra r hrmem
      simp only [Bool.and_eq_true, decide_eq_true_eq] at this
      rcases hrout with h | h
      · exact absurd this.1 (not_le.mpr h)
      · exact absurd this.2 (not_le.mpr h)
    unfold set_all_forces
    rw [if_pos hf, if_neg hnall]

/-- C4 witness: the test's valid speed list [0.5, 0.6, 0.7, 0.8, 0.9, 1.0]
succeeds, and the invalid list headed by 0.05 raises `ValueError`. -/
theorem c4_speed_force_range_witness :
    set_all_speeds [(1 : ℚ)/2, 3/5, 7/10, 4/5, 9/10, 1] =
      ([ModbusCall.writeRegisters DH5Registers.AXIS_SPEED_BASE
          ([(1 : ℚ)/2, 3/5, 7/10, 4/5, 9/10, 1].map ratioToRegister)],
       Except.ok SUCCESS) ∧
    set_all_speeds [(1 : ℚ)/20, 1/10, 1/5, 3/10, 2/5, 1/2] =
      ([], Except.error ApiError.valueError) :=
  ⟨(c4_speed_force_range [(1 : ℚ)/2, 3/5, 7/10, 4/5, 9/10, 1]
      [(1 : ℚ)/5, 1/5, 1/5, 1/5, 1/5, 1/5] rfl rfl).1
      (by intro r hr
          simp only [List.mem_cons, List.not_mem_nil, or_false] at hr
          rcases hr with h | h | h | h | h | h <;> subst h <;>
            constructor <;> norm_num),
   (c4_speed_force_range [(1 : ℚ)/20, 1/10, 1/5, 3/10, 2/5, 1/2]
      [(1 : ℚ)/5, 1/5, 1/5, 1/5, 1/5, 1/5] rfl rfl).2.1
      ⟨1/20, by norm_num, Or.inl (by norm_num)⟩⟩

/-- C6: the axis count is fixed at 6 — each all-axis setter raises
`ValueError` for a list of any length other than 6, and `get_all_positions`
returns exactly 6 values. -/
theorem c6_axis_count_fixed_at_six :
    (∀ positions : List Int, positions.length ≠ 6 →
      set_all_positions positions = ([], Except.error ApiError.valueError)) ∧
    (∀ speeds : List ℚ, speeds.length ≠ 6 →
      set_all_speeds speeds = ([], Except.error ApiError.valueError)) ∧
    (∀ forces : List ℚ, forces.length ≠ 6 →
      set_all_forces forces = ([], Except.error ApiError.valueError)) ∧
    (∀ (max_positions : List Nat) (ratios : List ℚ), ratios.length ≠ 6 →
      set_all_positions_by_ratio max_positions ratios =
        ([], Except.error ApiError.valueError)) ∧
    (∀ regs : Nat → Nat, ∃ values : List Int,
      get_all_positions regs =
        ([ModbusCall.readHoldingRegisters
            DH5Registers.AXIS_FEEDBACK_POSITION_BASE 6],
         Except.ok values) ∧ values.length = 6) := by
  refine ⟨fun ps h => ?_, fun vs h => ?_, fun vs h => ?_, fun mp vs h => ?_,
    fun regs => ?_⟩
  · unfold set_all_positions; rw [if_neg h]
  · unfold set_all_speeds; rw [if_neg h]
  · unfold set_all_forces; rw [if_neg h]
  · unfold set_all_positions_by_ratio; rw [if_neg h]
  · exact ⟨_, rfl, by simp⟩

/-- C6 witness: the test's length-3 list [100, 150, 200] raises `ValueError`
in each all-axis setter, and a concrete register file yields exactly 6
positions. -/
theorem c6_axis_count_fixed_at_six_witness :
    set_all_positions [100, 150, 200] = ([], Except.error ApiError.valueError) ∧
    set_all_speeds [1/2, 1/2, 1/2] = ([], Except.error ApiError.valueError) ∧
    set_all_forces [1/2, 1/2, 1/2] = ([], Except.error ApiError.valueError) ∧
    set_all_positions_by_ratio [500, 500, 500, 500, 500, 500] [1/2, 1/2, 1/2] =
      ([], Except.error ApiError.valueError) ∧
    (∃ values : List Int,
      get_all_positions (fun _ => 100) =
        ([ModbusCall.readHoldingRegisters
            DH5Registers.AXIS_FEEDBACK_POSITION_BASE 6],
         Except.ok values) ∧ values.length = 6) :=
  ⟨c6_axis_count_fixed_at_six.1 [100, 150, 200] (by decide),
   c6_axis_count_fixed_at_six.2.1 [1/2, 1/2, 1/2] (by decide),
   c6_axis_count_fixed_at_six.2.2.1 [1/2, 1/2, 1/2] (by decide),
   c6_axis_count_fixed_at_six.2.2.2.1 [500, 500, 500, 500, 500, 500]
     [1/2, 1/2, 1/2] (by decide),
   c6_axis_count_fixed_at_six.2.2.2.2 (fun _ => 100)⟩

/-- C7: initialization modes and the aging-test flag come from small
enumerated sets — `initialize` and `initialize_axis` accept only modes 1
(close), 2 (open), 3 (find stroke), `aging_test` only flags 0 and 1, and any
other value raises `ValueError`. -/
theorem c7_mode_flag_enumerated (mode flag : Nat) :
    (¬(mode = 1 ∨ mode = 2 ∨ mode = 3) →
      initialize_all mode = ([], Except.error ApiError.valueError) ∧
      (∀ axis : Nat, 1 ≤ axis → axis ≤ 6 →
        initialize_axis axis mode = ([], Except.error ApiError.valueError))) ∧
    ((mode = 1 ∨ mode = 2 ∨ mode = 3) →
      initialize_all mode =
        ([ModbusCall.writeRegister DH5Registers.RETURN_TO_ZERO (Int.ofNat mode)],
         Except.ok SUCCESS)) ∧
    (¬(flag = 0 ∨ flag = 1) →
      aging_test flag = ([], Except.error ApiError.valueError)) ∧
    ((flag = 0 ∨ flag = 1) →
      aging_test flag =
        ([ModbusCall.writeRegister DH5Registers.AGING_TEST (Int.ofNat flag)],
         Except.ok SUCCESS)) := by
  refine ⟨fun h => ⟨?_, fun axis h1 h6 => ?_⟩, fun h => ?_, fun h => ?_,
    fun h => ?_⟩
  · unfold initialize_all; rw [if_neg h]
  · unfold initialize_axis; rw [if_neg (by omega), if_neg h]
  · unfold initialize_all; rw [if_pos h]
  · unfold aging_test; rw [if_neg h]
  · unfold aging_test; rw [if_pos h]

/-- C7 witness: the tests' inputs — mode 5 and flag 2 raise `ValueError`
(also for `initialize_axis` at axis 1), mode 2 and flag 1 succeed. -/
theorem c7_mode_flag_enumerated_witness :
    initialize_all 5 = ([], Except.error ApiError.valueError) ∧
    initialize_axis 1 5 = ([], Except.error ApiError.valueError) ∧
    initialize_all 2 =
      ([ModbusCall.writeRegister DH5Registers.RETURN_TO_ZERO (Int.ofNat 2)],
       Except.ok SUCCESS) ∧
    aging_test 2 = ([], Except.error ApiError.valueError) ∧
    aging_test 1 =
      ([ModbusCall.writeRegister DH5Registers.AGING_TEST (Int.ofNat 1)],
       Except.ok SUCCESS) :=
  ⟨((c7_mode_flag_enumerated 5 2).1 (by decide)).1,
   ((c7_mode_flag_enumerated 5 2).1 (by decide)).2 1 (by decide) (by decide),
   (c7_mode_flag_enumerated 2 1).2.1 (Or.inr (Or.inl rfl)),
   (c7_mode_flag_enumerated 2 2).2.2.1 (by decide),
   (c7_mode_flag_enumerated 2 1).2.2.2 (Or.inr rfl)⟩

/-- Auxiliary for C8: `set_all_positions` issues exactly one client call
whenever it returns successfully. -/
theorem set_all_positions_one_call (positions : List Int) (v : Int)
    (h : (set_all_positions positions).2 = Except.ok v) :
    (set_all_positions positions).1.length = 1 := by
  unfold set_all_positions at h ⊢
  by_cases h6 : positions.length = 6
  · rw [if_pos h6]
    rfl
  · rw [if_neg h6] at h
    simp at h

/-- C8: every per-capability method, on a successful invocation, issues
exactly one call to the underlying Modbus client. -/
theorem c8_one_client_call_on_success :
    (∀ (mode : Nat) (v : Int), (initialize_all mode).2 = Except.ok v →
      (initialize_all mode).1.length = 1) ∧
    (∀ (axis mode : Nat) (v : Int), (initialize_axis axis mode).2 = Except.ok v →
      (initialize_axis axis mode).1.length = 1) ∧
    (∀ (positions : List Int) (v : Int),
      (set_all_positions positions).2 = Except.ok v →
      (set_all_positions positions).1.length = 1) ∧
    (∀ (regs : Nat → Nat) (v : List Int),
      (get_all_positions regs).2 = Except.ok v →
      (get_all_positions regs).1.length = 1) ∧
    (∀ (axis : Nat) (p v : Int), (set_axis_position axis p).2 = Except.ok v →
      (set_axis_position axis p).1.length = 1) ∧
    (∀ (regs : Nat → Nat) (axis : Nat) (v : Int),
      (get_axis_position regs axis).2 = Except.ok v →
      (get_axis_position regs axis).1.length = 1) ∧
    (∀ (regs : Nat → Nat) (axis : Nat) (v : Int),
      (get_axis_speed regs axis).2 = Except.ok v →
      (get_axis_speed regs axis).1.length = 1) ∧
    (∀ (regs : Nat → Nat) (axis : Nat) (v : Int),
      (get_axis_current regs axis).2 = Except.ok v →
      (get_axis_current regs axis).1.length = 1) ∧
    (∀ (max_positions : List Nat) (ratios : List ℚ) (v : Int),
      (set_all_positions_by_ratio max_positions ratios).2 = Except.ok v →
      (set_all_positions_by_ratio max_positions ratios).1.length = 1) ∧
    (∀ (speeds : List ℚ) (v : Int), (set_all_speeds speeds).2 = Except.ok v →
      (set_all_speeds speeds).1.length = 1) ∧
    (∀ (forces : List ℚ) (v : Int), (set_all_forces forces).2 = Except.ok v →
      (set_all_forces forces).1.length = 1) ∧
    (∀ (regs : Nat → Nat) (v : List (String × String)),
      (check_initialization regs).2 = Except.ok v →
      (check_initialization regs).1.length = 1) ∧
    reset_faults.1.length = 1 ∧
    (∀ (flag : Nat) (v : Int), (aging_test flag).2 = Except.ok v →
      (aging_test flag).1.length = 1) := by
  refine ⟨fun mode v h => ?_, fun axis mode v h => ?_,
    fun ps v h => set_all_positions_one_call ps v h, fun regs v h => rfl,
    fun axis p v h => ?_, fun regs axis v h => ?_, fun regs axis v h => ?_,
    fun regs axis v h => ?_, fun mp rs v h => ?_, fun vs v h => ?_,
    fun vs v h => ?_, fun regs v h => rfl, rfl, fun flag v h => ?_⟩
  · unfold initialize_all at h ⊢
    by_cases hm : mode = 1 ∨ mode = 2 ∨ mode = 3
    · rw [if_pos hm]
      rfl
    · rw [if_neg hm] at h
      simp at h
  · unfold initialize_axis at h ⊢
    by_cases hc : axis < 1 ∨ 6 < axis
    · rw [if_pos hc] at h
      simp at h
    · rw [if_neg hc] at h ⊢
      by_cases hm : mode = 1 ∨ mode = 2 ∨ mode = 3
      · rw [if_pos hm]
        rfl
      · rw [if_neg hm] at h
        simp at h
  · unfold set_axis_position at h ⊢
    by_cases hc : axis < 1 ∨ 6 < axis
    · rw [if_pos hc] at h
      simp at h
    · rw [if_neg hc]
      rfl
  · unfold get_axis_position at h ⊢
    by_cases hc : axis < 1 ∨ 6 < axis
    · rw [if_pos hc] at h
      simp at h
    · rw [if_neg hc]
      rfl
  · unfold get_axis_speed at h ⊢
    by_cases hc : axis < 1 ∨ 6 < axis
    · rw [if_pos hc] at h
      simp at h
    · rw [if_neg hc]
      rfl
  · unfold get_axis_current at h ⊢
    by_cases hc : axis < 1 ∨ 6 < axis
    · rw [if_pos hc] at h
      simp at h
    · rw [if_neg hc]
      rfl
  · unfold set_all_positions_by_ratio at h ⊢
    by_cases h6 : rs.length = 6
    · rw [if_pos h6] at h ⊢
      by_cases hall : (rs.all fun r => decide ((0 : ℚ) ≤ r) && decide (r ≤ 1)) = true
      · rw [if_pos hall] at h ⊢
        exact set_all_positions_one_call _ v h
      · rw [if_neg hall] at h
        simp at h
    · rw [if_neg h6] at h
      simp at h
  · unfold set_all_speeds at h ⊢
    by_cases h6 : vs.length = 6
    · rw [if_pos h6] at h ⊢
      by_cases hall : (vs.all fun r => decide ((1 : ℚ)/10 ≤ r) && decide (r ≤ 1)) = true
      · rw [if_pos hall]
        rfl
      · rw [if_neg hall] at h
        simp at h
    · rw [if_neg h6] at h
      simp at h
  · unfold set_all_forces at h ⊢
    by_cases h6 : vs.length = 6
    · rw [if_pos h6] at h ⊢
      by_cases hall : (vs.all fun r => decide ((1 : ℚ)/5 ≤ r) && decide (r ≤ 1)) = true
      · rw [if_pos hall]
        rfl
      · rw [if_neg hall] at h
        simp at h
    · rw [if_neg h6] at h
      simp at h
  · unfold aging_test at h ⊢
    by_cases hf : flag = 0 ∨ flag = 1
    · rw [if_pos hf]
      rfl
    · rw [if_neg hf] at h
      simp at h

/-- C8 witness: concrete successful invocations each issue exactly one
client call. -/
theorem c8_one_client_call_on_success_witness :
    (initialize_all 2).1.length = 1 ∧
    (set_all_positions [100, 150, 200, 250, 300, 350]).1.length = 1 ∧
    (set_axis_position 1 100).1.length = 1 ∧
    (get_all_positions (fun _ => 0)).1.length = 1 ∧
    (aging_test 1).1.length = 1 :=
  ⟨c8_one_client_call_on_success.1 2 SUCCESS rfl,
   c8_one_client_call_on_success.2.2.1 [100, 150, 200, 250, 300, 350] SUCCESS
     rfl,
   c8_one_client_call_on_success.2.2.2.2.1 1 100 SUCCESS rfl,
   c8_one_client_call_on_success.2.2.2.1 (fun _ => 0)
     ((List.range 6).map (fun i =>
       Int.ofNat ((fun _ => 0) (DH5Registers.AXIS_FEEDBACK_POSITION_BASE + i))))
     rfl,
   c8_one_client_call_on_success.2.2.2.2.2.2.2.2.2.2.2.2.2 1 SUCCESS rfl⟩

/-- C9: `open_connection` returns `SUCCESS` and leaves the connection flag
set exactly when the client's `connect()` returns true, and returns
`ERROR_CONNECTION_FAILED` when `connect()` returns false. -/
theorem c9_open_connection_mirrors_connect (b : Bool) :
    ((open_connection b).1 = SUCCESS ∧ (open_connection b).2 = true ↔ b = true) ∧
    (b = false → (open_connection b).1 = ERROR_CONNECTION_FAILED) := by
  cases b <;> simp [open_connection, SUCCESS, ERROR_CONNECTION_FAILED]

/-- C9 witness: both concrete values of `connect()`'s result. -/
theorem c9_open_connection_mirrors_connect_witness :
    ((open_connection true).1 = SUCCESS ∧ (open_connection true).2 = true) ∧
    (open_connection false).1 = ERROR_CONNECTION_FAILED :=
  ⟨(c9_open_connection_mirrors_connect true).1.mpr rfl,
   (c9_open_connection_mirrors_connect false).2 rfl⟩

/-- C10: `check_initialization`, when it succeeds, returns exactly six
entries keyed "axis_F1" through "axis_F6", one per axis, regardless of the
status word's value. -/
theorem c10_check_initialization_six_keys (regs : Nat → Nat) :
    ∃ statuses : List (String × String),
      check_initialization regs =
        ([ModbusCall.readHoldingRegisters DH5Registers.RETURN_TO_ZERO_STATUS 1],
         Except.ok statuses) ∧
      statuses.map Prod.fst =
        ["axis_F1", "axis_F2", "axis_F3", "axis_F4", "axis_F5", "axis_F6"] ∧
      statuses.length = 6 := by
  refine ⟨decodeInitStatus (regs DH5Registers.RETURN_TO_ZERO_STATUS), rfl, ?_, ?_⟩
  · unfold decodeInitStatus DH5Registers.AXIS_COUNT
    rw [List.map_map]
    rfl
  · unfold decodeInitStatus DH5Registers.AXIS_COUNT
    simp

end DH5
